import Mathlib

/-!
Shallow embedding of `src/cube.py` (class `RubiksCube` and the manual-edit
validation in `main`).  Python strings are modelled as `List Char`; a 3x3
face (`list[list[str]]` of single characters) is a structure with nine
`Char` fields `cIJ` = `faces[face][I][J]`; the `faces` dict is a structure
with the six face fields `U D F B L R`.  Mutating methods become pure
functions `Cube -> Cube`.
-/

/-- One 3x3 face; field `cIJ` is row `I`, column `J` of the Python grid. -/
structure Face where
  c00 : Char
  c01 : Char
  c02 : Char
  c10 : Char
  c11 : Char
  c12 : Char
  c20 : Char
  c21 : Char
  c22 : Char
deriving DecidableEq

/-- The `self.faces` dict: keys U, D, F, B, L, R. -/
structure Cube where
  U : Face
  D : Face
  F : Face
  B : Face
  L : Face
  R : Face
deriving DecidableEq

/-- Face identifiers (the six string keys of the `faces` dict). -/
inductive FKey where
  | U | D | F | B | L | R
deriving DecidableEq

/-- Dict read `self.faces[face]`. -/
def getFace (c : Cube) : FKey → Face
  | FKey.U => c.U
  | FKey.D => c.D
  | FKey.F => c.F
  | FKey.B => c.B
  | FKey.L => c.L
  | FKey.R => c.R

/-- Dict write `self.faces[face] = f`. -/
def setFace (c : Cube) (k : FKey) (f : Face) : Cube :=
  match k with
  | FKey.U => { c with U := f }
  | FKey.D => { c with D := f }
  | FKey.F => { c with F := f }
  | FKey.B => { c with B := f }
  | FKey.L => { c with L := f }
  | FKey.R => { c with R := f }

/-- `RubiksCube.__init__`: the solved cube
(White Up, Yellow Down, Red Front, Orange Back, Blue Left, Green Right). -/
def solvedCube : Cube :=
  { U := ⟨'W', 'W', 'W', 'W', 'W', 'W', 'W', 'W', 'W'⟩
    D := ⟨'Y', 'Y', 'Y', 'Y', 'Y', 'Y', 'Y', 'Y', 'Y'⟩
    F := ⟨'R', 'R', 'R', 'R', 'R', 'R', 'R', 'R', 'R'⟩
    B := ⟨'O', 'O', 'O', 'O', 'O', 'O', 'O', 'O', 'O'⟩
    L := ⟨'B', 'B', 'B', 'B', 'B', 'B', 'B', 'B', 'B'⟩
    R := ⟨'G', 'G', 'G', 'G', 'G', 'G', 'G', 'G', 'G'⟩ }

/-- `rotate_face_clockwise`: `new[i][j] = old[2-j][i]`. -/
def rotate_face_clockwise (f : Face) : Face :=
  ⟨f.c20, f.c10, f.c00,
   f.c21, f.c11, f.c01,
   f.c22, f.c12, f.c02⟩

/-- `move_R`: rotate the R face clockwise, then cycle the right columns
`U[i][2] ← F[i][2]`, `F[i][2] ← D[i][2]`, `D[i][2] ← B[2-i][0]`,
`B[2-i][0] ← old U[i][2]` (the loop saves `temp` first, so every
right-hand side reads the pre-move value). -/
def move_R (c : Cube) : Cube :=
  { U := { c.U with c02 := c.F.c02, c12 := c.F.c12, c22 := c.F.c22 }
    F := { c.F with c02 := c.D.c02, c12 := c.D.c12, c22 := c.D.c22 }
    D := { c.D with c02 := c.B.c20, c12 := c.B.c10, c22 := c.B.c00 }
    B := { c.B with c20 := c.U.c02, c10 := c.U.c12, c00 := c.U.c22 }
    L := c.L
    R := rotate_face_clockwise c.R }

/-- `move_U`: rotate U clockwise, then cycle top rows
`F ← R`, `R ← B`, `B ← L`, `L ← old F`. -/
def move_U (c : Cube) : Cube :=
  { U := rotate_face_clockwise c.U
    F := { c.F with c00 := c.R.c00, c01 := c.R.c01, c02 := c.R.c02 }
    R := { c.R with c00 := c.B.c00, c01 := c.B.c01, c02 := c.B.c02 }
    B := { c.B with c00 := c.L.c00, c01 := c.L.c01, c02 := c.L.c02 }
    L := { c.L with c00 := c.F.c00, c01 := c.F.c01, c02 := c.F.c02 }
    D := c.D }

/-- `move_F`: rotate F clockwise, then
`U[2][i] ← L[2-i][2]`, `L[2-i][2] ← D[0][2-i]`, `D[0][2-i] ← R[i][0]`,
`R[i][0] ← old U[2][i]`. -/
def move_F (c : Cube) : Cube :=
  { F := rotate_face_clockwise c.F
    U := { c.U with c20 := c.L.c22, c21 := c.L.c12, c22 := c.L.c02 }
    L := { c.L with c22 := c.D.c02, c12 := c.D.c01, c02 := c.D.c00 }
    D := { c.D with c02 := c.R.c00, c01 := c.R.c10, c00 := c.R.c20 }
    R := { c.R with c00 := c.U.c20, c10 := c.U.c21, c20 := c.U.c22 }
    B := c.B }

/-- `move_L`: rotate L clockwise, then
`U[i][0] ← B[2-i][2]`, `B[2-i][2] ← D[i][0]`, `D[i][0] ← F[i][0]`,
`F[i][0] ← old U[i][0]`. -/
def move_L (c : Cube) : Cube :=
  { L := rotate_face_clockwise c.L
    U := { c.U with c00 := c.B.c22, c10 := c.B.c12, c20 := c.B.c02 }
    B := { c.B with c22 := c.D.c00, c12 := c.D.c10, c02 := c.D.c20 }
    D := { c.D with c00 := c.F.c00, c10 := c.F.c10, c20 := c.F.c20 }
    F := { c.F with c00 := c.U.c00, c10 := c.U.c10, c20 := c.U.c20 }
    R := c.R }

/-- `move_D`: rotate D clockwise, then cycle bottom rows
`F ← L`, `L ← B`, `B ← R`, `R ← old F`. -/
def move_D (c : Cube) : Cube :=
  { D := rotate_face_clockwise c.D
    F := { c.F with c20 := c.L.c20, c21 := c.L.c21, c22 := c.L.c22 }
    L := { c.L with c20 := c.B.c20, c21 := c.B.c21, c22 := c.B.c22 }
    B := { c.B with c20 := c.R.c20, c21 := c.R.c21, c22 := c.R.c22 }
    R := { c.R with c20 := c.F.c20, c21 := c.F.c21, c22 := c.F.c22 }
    U := c.U }

/-- `move_B`: rotate B clockwise, then
`U[0][i] ← R[i][2]`, `R[i][2] ← D[2][2-i]`, `D[2][2-i] ← L[2-i][0]`,
`L[2-i][0] ← old U[0][i]`. -/
def move_B (c : Cube) : Cube :=
  { B := rotate_face_clockwise c.B
    U := { c.U with c00 := c.R.c02, c01 := c.R.c12, c02 := c.R.c22 }
    R := { c.R with c02 := c.D.c22, c12 := c.D.c21, c22 := c.D.c20 }
    D := { c.D with c22 := c.L.c20, c21 := c.L.c10, c20 := c.L.c00 }
    L := { c.L with c20 := c.U.c00, c10 := c.U.c01, c00 := c.U.c02 }
    F := c.F }

/-- `move_R_prime`: three clockwise R turns. -/
def move_R_prime (c : Cube) : Cube := move_R (move_R (move_R c))

/-- `move_U_prime`: three clockwise U turns. -/
def move_U_prime (c : Cube) : Cube := move_U (move_U (move_U c))

/-- `move_F_prime`: three clockwise F turns. -/
def move_F_prime (c : Cube) : Cube := move_F (move_F (move_F c))

/-- `move_L_prime`: three clockwise L turns. -/
def move_L_prime (c : Cube) : Cube := move_L (move_L (move_L c))

/-- `move_D_prime`: three clockwise D turns. -/
def move_D_prime (c : Cube) : Cube := move_D (move_D (move_D c))

/-- `move_B_prime`: three clockwise B turns. -/
def move_B_prime (c : Cube) : Cube := move_B (move_B (move_B c))

/-- The ASCII apostrophe used as the counter-clockwise suffix in move tokens. -/
def primeChar : Char := Char.ofNat 39

/-- Move token `R`. -/
def tokR : String := "R"

/-- Move token R-prime. -/
def tokRp : String := String.mk ['R', primeChar]

/-- Move token `R2`. -/
def tokR2 : String := "R2"

/-- Move token `U`. -/
def tokU : String := "U"

/-- Move token U-prime. -/
def tokUp : String := String.mk ['U', primeChar]

/-- Move token `U2`. -/
def tokU2 : String := "U2"

/-- Move token `F`. -/
def tokF : String := "F"

/-- Move token F-prime. -/
def tokFp : String := String.mk ['F', primeChar]

/-- Move token `F2`. -/
def tokF2 : String := "F2"

/-- Move token `L`. -/
def tokL : String := "L"

/-- Move token L-prime. -/
def tokLp : String := String.mk ['L', primeChar]

/-- Move token `L2`. -/
def tokL2 : String := "L2"

/-- Move token `D`. -/
def tokD : String := "D"

/-- Move token D-prime. -/
def tokDp : String := String.mk ['D', primeChar]

/-- Move token `D2`. -/
def tokD2 : String := "D2"

/-- Move token `B`. -/
def tokB : String := "B"

/-- Move token B-prime. -/
def tokBp : String := String.mk ['B', primeChar]

/-- Move token `B2`. -/
def tokB2 : String := "B2"

/-- The 18 keys of the `move_map` dict in `execute_move`. -/
def tokens18 : List String :=
  [tokR, tokRp, tokU, tokUp, tokF, tokFp, tokL, tokLp, tokD, tokDp,
   tokB, tokBp, tokR2, tokU2, tokF2, tokL2, tokD2, tokB2]

/-- `execute_move`: dispatch one token through the `move_map` dict; a token
not in the dict leaves the cube unchanged (`if move in move_map` guard). -/
def execute_move (mv : String) (c : Cube) : Cube :=
  if mv = tokR then move_R c
  else if mv = tokRp then move_R_prime c
  else if mv = tokU then move_U c
  else if mv = tokUp then move_U_prime c
  else if mv = tokF then move_F c
  else if mv = tokFp then move_F_prime c
  else if mv = tokL then move_L c
  else if mv = tokLp then move_L_prime c
  else if mv = tokD then move_D c
  else if mv = tokDp then move_D_prime c
  else if mv = tokB then move_B c
  else if mv = tokBp then move_B_prime c
  else if mv = tokR2 then move_R (move_R c)
  else if mv = tokU2 then move_U (move_U c)
  else if mv = tokF2 then move_F (move_F c)
  else if mv = tokL2 then move_L (move_L c)
  else if mv = tokD2 then move_D (move_D c)
  else if mv = tokB2 then move_B (move_B c)
  else c

/-- Apply a sequence of move tokens left to right (the replay loops in the
app call `execute_move` on each token in order). -/
def applySeq (moves : List String) (c : Cube) : Cube :=
  moves.foldl (fun s m => execute_move m s) c

/-- `get_face_string`: a face as its 9-character row-major string
(strings are modelled as `List Char`). -/
def get_face_string (f : Face) : List Char :=
  [f.c00, f.c01, f.c02, f.c10, f.c11, f.c12, f.c20, f.c21, f.c22]

/-- `KOCIEMBA_COLOR_MAP.get(color, color)`: the dict lookup with the
symbol itself as default for keys outside the table. -/
def kociemba_color_map (ch : Char) : Char :=
  if ch = 'W' then 'U'
  else if ch = 'R' then 'R'
  else if ch = 'G' then 'F'
  else if ch = 'Y' then 'D'
  else if ch = 'O' then 'L'
  else if ch = 'B' then 'B'
  else ch

/-- `get_kociemba_string`: `None` when the kociemba library is missing
(`KOCIEMBA_AVAILABLE` is passed explicitly); otherwise the faces in the
order U R F D L B, each character translated through the color map. -/
def get_kociemba_string (kociembaAvailable : Bool) (c : Cube) : Option (List Char) :=
  if kociembaAvailable then
    some ((get_face_string c.U).map kociemba_color_map ++
          (get_face_string c.R).map kociemba_color_map ++
          (get_face_string c.F).map kociemba_color_map ++
          (get_face_string c.D).map kociemba_color_map ++
          (get_face_string c.L).map kociemba_color_map ++
          (get_face_string c.B).map kociemba_color_map)
  else none

/-- The first nine characters of a string arranged as a face in row-major
order (`face_string[i * 3 + j]`); the `getD` default is only reachable for
strings shorter than nine characters. -/
def first9Face (s : List Char) : Face :=
  ⟨s.getD 0 ' ', s.getD 1 ' ', s.getD 2 ' ',
   s.getD 3 ' ', s.getD 4 ' ', s.getD 5 ' ',
   s.getD 6 ' ', s.getD 7 ' ', s.getD 8 ' '⟩

/-- `set_face_from_string`: writes `face_string[i*3+j]` into cell `(i,j)`.
The Python body performs no length check: indices 0..8 succeed whenever
the string has at least nine characters (extra characters are ignored),
and a shorter string raises `IndexError`, modelled here as `none`. -/
def set_face_from_string (c : Cube) (k : FKey) (s : List Char) : Option Cube :=
  if 9 ≤ s.length then some (setFace c k (first9Face s)) else none

/-- The inner two loops of `is_solved` for one face: every cell equals the
expected color. -/
def faceAll (f : Face) (col : Char) : Bool :=
  (f.c00 == col) && (f.c01 == col) && (f.c02 == col) &&
  (f.c10 == col) && (f.c11 == col) && (f.c12 == col) &&
  (f.c20 == col) && (f.c21 == col) && (f.c22 == col)

/-- `is_solved`: iterates the `solved_faces` dict
`{U: W, D: Y, F: R, B: O, L: B, R: G}` and returns `False` on the first
mismatching cell. -/
def is_solved (c : Cube) : Bool :=
  faceAll c.U 'W' && faceAll c.D 'Y' && faceAll c.F 'R' &&
  faceAll c.B 'O' && faceAll c.L 'B' && faceAll c.R 'G'

/-- All 54 cells of the cube (dict iteration order U D F B L R). -/
def cube_cells (c : Cube) : List Char :=
  get_face_string c.U ++ get_face_string c.D ++ get_face_string c.F ++
  get_face_string c.B ++ get_face_string c.L ++ get_face_string c.R

/-- Number of cells showing a given color. -/
def countColor (col : Char) (c : Cube) : Nat :=
  (cube_cells c).count col

/-- The six face-center cells `faces[f][1][1]`, in the order U D F B L R. -/
def centers (c : Cube) : List Char :=
  [c.U.c11, c.D.c11, c.F.c11, c.B.c11, c.L.c11, c.R.c11]

/-- The golden regression sequence R, U, R-prime, U-prime. -/
def regressionSeq : List String := [tokR, tokU, tokRp, tokUp]

/-- The six text inputs of the manual-input form, keyed by face
(`face_names` order U, D, F, B, L, R). -/
structure FaceInputs where
  inpU : List Char
  inpD : List Char
  inpF : List Char
  inpB : List Char
  inpL : List Char
  inpR : List Char

/-- `valid_colors = set('WYROBG')` in `main`. -/
def valid_colors : List Char := ['W', 'Y', 'R', 'O', 'B', 'G']

/-- One face input passes validation: length exactly 9 and every character
uppercases into `valid_colors` (`len(face_input) == 9` and
`all(c.upper() in valid_colors for c in face_input)`). -/
def validFaceInput (s : List Char) : Bool :=
  (s.length == 9) && s.all (fun ch => valid_colors.contains ch.toUpper)

/-- The Update-Cube handler in `main`: validate all six inputs first
(`all_valid`), and only when every face passes overwrite all six faces via
`set_face_from_string(face, input.upper())` in the order U D F B L R;
when any face fails, nothing is applied. -/
def update_cube (inp : FaceInputs) (c : Cube) : Option Cube :=
  if validFaceInput inp.inpU && validFaceInput inp.inpD &&
     validFaceInput inp.inpF && validFaceInput inp.inpB &&
     validFaceInput inp.inpL && validFaceInput inp.inpR then
    (set_face_from_string c FKey.U (inp.inpU.map Char.toUpper)).bind (fun c1 =>
    (set_face_from_string c1 FKey.D (inp.inpD.map Char.toUpper)).bind (fun c2 =>
    (set_face_from_string c2 FKey.F (inp.inpF.map Char.toUpper)).bind (fun c3 =>
    (set_face_from_string c3 FKey.B (inp.inpB.map Char.toUpper)).bind (fun c4 =>
    (set_face_from_string c4 FKey.L (inp.inpL.map Char.toUpper)).bind (fun c5 =>
    set_face_from_string c5 FKey.R (inp.inpR.map Char.toUpper))))))
  else none

/-- Spec-side color translation, from the spec words: White maps to U,
Red to R, Green to F, Yellow to D, Orange to L, Blue to B, and any other
symbol passes through unmapped. -/
def specColorMap (ch : Char) : Char :=
  if ch = 'W' then 'U'
  else if ch = 'R' then 'R'
  else if ch = 'G' then 'F'
  else if ch = 'Y' then 'D'
  else if ch = 'O' then 'L'
  else if ch = 'B' then 'B'
  else ch

/-- Spec-side face encoding: the row-major 9-symbol encoding of one face,
translated through the fixed color mapping. -/
def specFaceEncoding (f : Face) : List Char :=
  (get_face_string f).map specColorMap

/-- Spec-side canonical encoding, from the spec words: concatenation of
the six per-face encodings in the fixed order Up, Right, Front, Down,
Left, Back. -/
def specCanonicalEncoding (c : Cube) : List Char :=
  specFaceEncoding c.U ++ specFaceEncoding c.R ++ specFaceEncoding c.F ++
  specFaceEncoding c.D ++ specFaceEncoding c.L ++ specFaceEncoding c.B

/-- Spec-side uniform-face predicate: every cell of the face equals the
given color. -/
def faceUniform (f : Face) (col : Char) : Prop :=
  f.c00 = col ∧ f.c01 = col ∧ f.c02 = col ∧
  f.c10 = col ∧ f.c11 = col ∧ f.c12 = col ∧
  f.c20 = col ∧ f.c21 = col ∧ f.c22 = col

/-- Spec-side solved predicate: Up all White, Down all Yellow, Front all
Red, Back all Orange, Left all Blue, Right all Green. -/
def specSolvedState (c : Cube) : Prop :=
  faceUniform c.U 'W' ∧ faceUniform c.D 'Y' ∧ faceUniform c.F 'R' ∧
  faceUniform c.B 'O' ∧ faceUniform c.L 'B' ∧ faceUniform c.R 'G'

/-! Helper lemmas shared by the claim theorems. -/

theorem countColor_move_R (col : Char) (c : Cube) :
    countColor col (move_R c) = countColor col c := by
  simp only [countColor, cube_cells, get_face_string, move_R, rotate_face_clockwise,
    List.count_append, List.count_cons, List.count_nil]
  omega

theorem countColor_move_U (col : Char) (c : Cube) :
    countColor col (move_U c) = countColor col c := by
  simp only [countColor, cube_cells, get_face_string, move_U, rotate_face_clockwise,
    List.count_append, List.count_cons, List.count_nil]
  omega

theorem countColor_move_F (col : Char) (c : Cube) :
    countColor col (move_F c) = countColor col c := by
  simp only [countColor, cube_cells, get_face_string, move_F, rotate_face_clockwise,
    List.count_append, List.count_cons, List.count_nil]
  omega

theorem countColor_move_L (col : Char) (c : Cube) :
    countColor col (move_L c) = countColor col c := by
  simp only [countColor, cube_cells, get_face_string, move_L, rotate_face_clockwise,
    List.count_append, List.count_cons, List.count_nil]
  omega

theorem countColor_move_D (col : Char) (c : Cube) :
    countColor col (move_D c) = countColor col c := by
  simp only [countColor, cube_cells, get_face_string, move_D, rotate_face_clockwise,
    List.count_append, List.count_cons, List.count_nil]
  omega

theorem countColor_move_B (col : Char) (c : Cube) :
    countColor col (move_B c) = countColor col c := by
  simp only [countColor, cube_cells, get_face_string, move_B, rotate_face_clockwise,
    List.count_append, List.count_cons, List.count_nil]
  omega

theorem exec_tokR (c : Cube) : execute_move tokR c = move_R c := rfl

theorem exec_tokRp (c : Cube) : execute_move tokRp c = move_R_prime c := rfl

theorem exec_tokU (c : Cube) : execute_move tokU c = move_U c := rfl

theorem exec_tokUp (c : Cube) : execute_move tokUp c = move_U_prime c := rfl

theorem exec_tokF (c : Cube) : execute_move tokF c = move_F c := rfl

theorem exec_tokFp (c : Cube) : execute_move tokFp c = move_F_prime c := rfl

theorem exec_tokL (c : Cube) : execute_move tokL c = move_L c := rfl

theorem exec_tokLp (c : Cube) : execute_move tokLp c = move_L_prime c := rfl

theorem exec_tokD (c : Cube) : execute_move tokD c = move_D c := rfl

theorem exec_tokDp (c : Cube) : execute_move tokDp c = move_D_prime c := rfl

theorem exec_tokB (c : Cube) : execute_move tokB c = move_B c := rfl

theorem exec_tokBp (c : Cube) : execute_move tokBp c = move_B_prime c := rfl

theorem exec_tokR2 (c : Cube) : execute_move tokR2 c = move_R (move_R c) := rfl

theorem exec_tokU2 (c : Cube) : execute_move tokU2 c = move_U (move_U c) := rfl

theorem exec_tokF2 (c : Cube) : execute_move tokF2 c = move_F (move_F c) := rfl

theorem exec_tokL2 (c : Cube) : execute_move tokL2 c = move_L (move_L c) := rfl

theorem exec_tokD2 (c : Cube) : execute_move tokD2 c = move_D (move_D c) := rfl

theorem exec_tokB2 (c : Cube) : execute_move tokB2 c = move_B (move_B c) := rfl

theorem exec_notMem (mv : String) (h : mv ∉ tokens18) (c : Cube) :
    execute_move mv c = c := by
  simp only [tokens18, List.mem_cons, List.not_mem_nil, not_or, or_false] at h
  unfold execute_move
  rw [if_neg h.1, if_neg h.2.1, if_neg h.2.2.1, if_neg h.2.2.2.1, if_neg h.2.2.2.2.1,
      if_neg h.2.2.2.2.2.1, if_neg h.2.2.2.2.2.2.1, if_neg h.2.2.2.2.2.2.2.1,
      if_neg h.2.2.2.2.2.2.2.2.1, if_neg h.2.2.2.2.2.2.2.2.2.1,
      if_neg h.2.2.2.2.2.2.2.2.2.2.1, if_neg h.2.2.2.2.2.2.2.2.2.2.2.1,
      if_neg h.2.2.2.2.2.2.2.2.2.2.2.2.1, if_neg h.2.2.2.2.2.2.2.2.2.2.2.2.2.1,
      if_neg h.2.2.2.2.2.2.2.2.2.2.2.2.2.2.1, if_neg h.2.2.2.2.2.2.2.2.2.2.2.2.2.2.2.1,
      if_neg h.2.2.2.2.2.2.2.2.2.2.2.2.2.2.2.2.1,
      if_neg h.2.2.2.2.2.2.2.2.2.2.2.2.2.2.2.2.2]

set_option maxHeartbeats 1000000 in
theorem countColor_execute (mv : String) (col : Char) (c : Cube) :
    countColor col (execute_move mv c) = countColor col c := by
  by_cases hm : mv ∈ tokens18
  · simp only [tokens18, List.mem_cons, List.not_mem_nil, or_false] at hm
    rcases hm with rfl | rfl | rfl | rfl | rfl | rfl | rfl | rfl | rfl | rfl | rfl | rfl |
      rfl | rfl | rfl | rfl | rfl | rfl <;>
      simp only [exec_tokR, exec_tokRp, exec_tokU, exec_tokUp, exec_tokF, exec_tokFp,
        exec_tokL, exec_tokLp, exec_tokD, exec_tokDp, exec_tokB, exec_tokBp,
        exec_tokR2, exec_tokU2, exec_tokF2, exec_tokL2, exec_tokD2, exec_tokB2,
        move_R_prime, move_U_prime, move_F_prime, move_L_prime, move_D_prime, move_B_prime,
        countColor_move_R, countColor_move_U, countColor_move_F,
        countColor_move_L, countColor_move_D, countColor_move_B]
  · rw [exec_notMem mv hm]

theorem countColor_applySeq (moves : List String) (col : Char) (c : Cube) :
    countColor col (applySeq moves c) = countColor col c := by
  induction moves generalizing c with
  | nil => rfl
  | cons m ms ih =>
      have step : applySeq (m :: ms) c = applySeq ms (execute_move m c) := rfl
      rw [step, ih, countColor_execute]

set_option maxHeartbeats 1000000 in
theorem centers_execute (mv : String) (c : Cube) :
    centers (execute_move mv c) = centers c := by
  by_cases hm : mv ∈ tokens18
  · simp only [tokens18, List.mem_cons, List.not_mem_nil, or_false] at hm
    rcases hm with rfl | rfl | rfl | rfl | rfl | rfl | rfl | rfl | rfl | rfl | rfl | rfl |
      rfl | rfl | rfl | rfl | rfl | rfl <;> rfl
  · rw [exec_notMem mv hm]

theorem centers_applySeq (moves : List String) (c : Cube) :
    centers (applySeq moves c) = centers c := by
  induction moves generalizing c with
  | nil => rfl
  | cons m ms ih =>
      have step : applySeq (m :: ms) c = applySeq ms (execute_move m c) := rfl
      rw [step, ih, centers_execute]

theorem is_solved_iff_uniform (c : Cube) : is_solved c = true ↔ specSolvedState c := by
  simp only [is_solved, faceAll, specSolvedState, faceUniform, Bool.and_eq_true,
    beq_iff_eq, and_assoc]

theorem kociemba_map_default (ch : Char) (h : ch ∉ ['W', 'R', 'G', 'Y', 'O', 'B']) :
    kociemba_color_map ch = ch := by
  simp only [List.mem_cons, List.not_mem_nil, not_or, or_false] at h
  simp only [kociemba_color_map, if_neg h.1, if_neg h.2.1, if_neg h.2.2.1,
    if_neg h.2.2.2.1, if_neg h.2.2.2.2.1, if_neg h.2.2.2.2.2]

/-- Claim C1: for every primitive move and every cube state, executing the
move and then its inverse (counter-clockwise after clockwise, and vice
versa) through `execute_move` restores all six faces, and each
counter-clockwise move is observably identical to three applications of
the corresponding clockwise primitive. -/
theorem inverse_law : ∀ c : Cube,
    (execute_move tokRp (execute_move tokR c) = c ∧
     execute_move tokR (execute_move tokRp c) = c ∧
     execute_move tokRp c = move_R (move_R (move_R c))) ∧
    (execute_move tokUp (execute_move tokU c) = c ∧
     execute_move tokU (execute_move tokUp c) = c ∧
     execute_move tokUp c = move_U (move_U (move_U c))) ∧
    (execute_move tokFp (execute_move tokF c) = c ∧
     execute_move tokF (execute_move tokFp c) = c ∧
     execute_move tokFp c = move_F (move_F (move_F c))) ∧
    (execute_move tokLp (execute_move tokL c) = c ∧
     execute_move tokL (execute_move tokLp c) = c ∧
     execute_move tokLp c = move_L (move_L (move_L c))) ∧
    (execute_move tokDp (execute_move tokD c) = c ∧
     execute_move tokD (execute_move tokDp c) = c ∧
     execute_move tokDp c = move_D (move_D (move_D c))) ∧
    (execute_move tokBp (execute_move tokB c) = c ∧
     execute_move tokB (execute_move tokBp c) = c ∧
     execute_move tokBp c = move_B (move_B (move_B c))) :=
  fun _ => ⟨⟨rfl, rfl, rfl⟩, ⟨rfl, rfl, rfl⟩, ⟨rfl, rfl, rfl⟩,
            ⟨rfl, rfl, rfl⟩, ⟨rfl, rfl, rfl⟩, ⟨rfl, rfl, rfl⟩⟩

/-- Claim C2: for every cube state, applying any clockwise primitive move
four times restores the state; each double move equals two applications of
the corresponding clockwise primitive, and applying any double move twice
restores the state. -/
theorem order4_law : ∀ c : Cube,
    (execute_move tokR (execute_move tokR (execute_move tokR (execute_move tokR c))) = c ∧
     execute_move tokR2 c = move_R (move_R c) ∧
     execute_move tokR2 (execute_move tokR2 c) = c) ∧
    (execute_move tokU (execute_move tokU (execute_move tokU (execute_move tokU c))) = c ∧
     execute_move tokU2 c = move_U (move_U c) ∧
     execute_move tokU2 (execute_move tokU2 c) = c) ∧
    (execute_move tokF (execute_move tokF (execute_move tokF (execute_move tokF c))) = c ∧
     execute_move tokF2 c = move_F (move_F c) ∧
     execute_move tokF2 (execute_move tokF2 c) = c) ∧
    (execute_move tokL (execute_move tokL (execute_move tokL (execute_move tokL c))) = c ∧
     execute_move tokL2 c = move_L (move_L c) ∧
     execute_move tokL2 (execute_move tokL2 c) = c) ∧
    (execute_move tokD (execute_move tokD (execute_move tokD (execute_move tokD c))) = c ∧
     execute_move tokD2 c = move_D (move_D c) ∧
     execute_move tokD2 (execute_move tokD2 c) = c) ∧
    (execute_move tokB (execute_move tokB (execute_move tokB (execute_move tokB c))) = c ∧
     execute_move tokB2 c = move_B (move_B c) ∧
     execute_move tokB2 (execute_move tokB2 c) = c) :=
  fun _ => ⟨⟨rfl, rfl, rfl⟩, ⟨rfl, rfl, rfl⟩, ⟨rfl, rfl, rfl⟩,
            ⟨rfl, rfl, rfl⟩, ⟨rfl, rfl, rfl⟩, ⟨rfl, rfl, rfl⟩⟩

/-- Claim C3: from the solved state, one pass of the token sequence
R, U, R-prime, U-prime is not solved, and six passes (24 applications of
`execute_move`) return exactly the solved state. -/
theorem ru_sequence_order6 :
    applySeq regressionSeq solvedCube ≠ solvedCube ∧
    applySeq (regressionSeq ++ regressionSeq ++ regressionSeq ++
              regressionSeq ++ regressionSeq ++ regressionSeq) solvedCube = solvedCube := by
  decide

/-- Claim C4: starting from the solved state, after any finite sequence of
the 18 recognized move tokens, each of the six colors appears exactly nine
times across the 54 cells. -/
theorem color_count_invariant (moves : List String)
    (_hmoves : ∀ mv ∈ moves, mv ∈ tokens18) (col : Char)
    (hcol : col ∈ ['W', 'Y', 'R', 'O', 'B', 'G']) :
    countColor col (applySeq moves solvedCube) = 9 := by
  rw [countColor_applySeq]
  simp only [List.mem_cons, List.not_mem_nil, or_false] at hcol
  rcases hcol with rfl | rfl | rfl | rfl | rfl | rfl <;> decide

/-- Witness for claim C4 at the one-move sequence `[R]` and color White. -/
theorem color_count_invariant_witness :
    countColor 'W' (applySeq [tokR] solvedCube) = 9 :=
  color_count_invariant [tokR] (by decide) 'W' (by decide)

/-- Claim C5: when the solver capability is available, the canonical
encoding of any cube state is the 54-symbol concatenation of the six faces
in the order Up, Right, Front, Down, Left, Back, each row-major and
translated through the fixed mapping (White to U, Red to R, Green to F,
Yellow to D, Orange to L, Blue to B), and symbols outside the six
recognized colors pass through unmapped. -/
theorem canonical_encoding_spec (avail : Bool) (c : Cube) (h : avail = true) :
    get_kociemba_string avail c = some (specCanonicalEncoding c) ∧
    (specCanonicalEncoding c).length = 54 ∧
    (∀ ch : Char, ch ∉ ['W', 'R', 'G', 'Y', 'O', 'B'] → kociemba_color_map ch = ch) := by
  subst h
  refine ⟨rfl, ?_, kociemba_map_default⟩
  simp [specCanonicalEncoding, specFaceEncoding, get_face_string]

/-- Witness for claim C5 at the solved cube and the unrecognized symbol X. -/
theorem canonical_encoding_spec_witness :
    get_kociemba_string true solvedCube = some (specCanonicalEncoding solvedCube) ∧
    kociemba_color_map 'X' = 'X' :=
  ⟨(canonical_encoding_spec true solvedCube rfl).1,
   (canonical_encoding_spec true solvedCube rfl).2.2 'X' (by decide)⟩

/-- Claim C6: `is_solved` is true exactly when every cell of every face
shows that face's solved color (Up White, Down Yellow, Front Red, Back
Orange, Left Blue, Right Green); the freshly constructed cube is solved
and a lone R move from solved is not. -/
theorem is_solved_exact :
    (∀ c : Cube, is_solved c = true ↔ specSolvedState c) ∧
    is_solved solvedCube = true ∧
    is_solved (execute_move tokR solvedCube) = false :=
  ⟨is_solved_iff_uniform, by decide, by decide⟩

/-- Counterexample to claim C7: a 10-character string does not make the
face decode fail — `set_face_from_string` succeeds on it, although the
claim requires failure for every length other than nine. -/
theorem decode_wrong_length_cex :
    (List.replicate 10 'W').length ≠ 9 ∧
    set_face_from_string solvedCube FKey.U (List.replicate 10 'W') ≠ none := by
  decide

/-- Claim C7 as amended: the face decode fails only for strings shorter
than nine characters (the unchecked indexing raises there); for any string
of length at least nine it overwrites the face row-major from the first
nine characters, with no validation of symbol membership. -/
theorem decode_length_amended (c : Cube) (k : FKey) (s : List Char) :
    (s.length < 9 → set_face_from_string c k s = none) ∧
    (9 ≤ s.length → set_face_from_string c k s = some (setFace c k (first9Face s))) := by
  constructor
  · intro h
    simp only [set_face_from_string, if_neg (by omega : ¬ 9 ≤ s.length)]
  · intro h
    simp only [set_face_from_string, if_pos h]

/-- Witness for amended claim C7 at an 8-character and a 10-character
string on the Up face of the solved cube. -/
theorem decode_length_amended_witness :
    set_face_from_string solvedCube FKey.U (List.replicate 8 'W') = none ∧
    set_face_from_string solvedCube FKey.U (List.replicate 10 'W') =
      some (setFace solvedCube FKey.U (first9Face (List.replicate 10 'W'))) :=
  ⟨(decode_length_amended solvedCube FKey.U (List.replicate 8 'W')).1 (by decide),
   (decode_length_amended solvedCube FKey.U (List.replicate 10 'W')).2 (by decide)⟩

/-- Claim C8: `execute_move` on any token outside the 18 recognized ones
leaves every cube state entirely unchanged and signals no error. -/
theorem unknown_token_noop (mv : String) (h : mv ∉ tokens18) (c : Cube) :
    execute_move mv c = c :=
  exec_notMem mv h c

/-- Witness for claim C8 at the unrecognized token X on the solved cube. -/
theorem unknown_token_noop_witness :
    String.mk ['X'] ∉ tokens18 ∧
    execute_move (String.mk ['X']) solvedCube = solvedCube :=
  ⟨by decide, unknown_token_noop (String.mk ['X']) (by decide) solvedCube⟩

/-- Claim C9: manual edit validation is all-or-nothing — if any of the six
face strings fails validation (length nine, characters case-insensitively
in W Y R O B G), no face is modified; when all six pass, all six faces are
overwritten with the uppercased strings. -/
theorem manual_update_all_or_nothing (inp : FaceInputs) (c : Cube) :
    ((validFaceInput inp.inpU = false ∨ validFaceInput inp.inpD = false ∨
      validFaceInput inp.inpF = false ∨ validFaceInput inp.inpB = false ∨
      validFaceInput inp.inpL = false ∨ validFaceInput inp.inpR = false) →
      update_cube inp c = none) ∧
    ((validFaceInput inp.inpU = true ∧ validFaceInput inp.inpD = true ∧
      validFaceInput inp.inpF = true ∧ validFaceInput inp.inpB = true ∧
      validFaceInput inp.inpL = true ∧ validFaceInput inp.inpR = true) →
      update_cube inp c = some
        { U := first9Face (inp.inpU.map Char.toUpper)
          D := first9Face (inp.inpD.map Char.toUpper)
          F := first9Face (inp.inpF.map Char.toUpper)
          B := first9Face (inp.inpB.map Char.toUpper)
          L := first9Face (inp.inpL.map Char.toUpper)
          R := first9Face (inp.inpR.map Char.toUpper) }) := by
  constructor
  · intro h
    unfold update_cube
    rcases h with h | h | h | h | h | h <;> simp [h]
  · rintro ⟨h1, h2, h3, h4, h5, h6⟩
    have e1 : inp.inpU.length = 9 := by
      simp only [validFaceInput, Bool.and_eq_true, beq_iff_eq] at h1; exact h1.1
    have e2 : inp.inpD.length = 9 := by
      simp only [validFaceInput, Bool.and_eq_true, beq_iff_eq] at h2; exact h2.1
    have e3 : inp.inpF.length = 9 := by
      simp only [validFaceInput, Bool.and_eq_true, beq_iff_eq] at h3; exact h3.1
    have e4 : inp.inpB.length = 9 := by
      simp only [validFaceInput, Bool.and_eq_true, beq_iff_eq] at h4; exact h4.1
    have e5 : inp.inpL.length = 9 := by
      simp only [validFaceInput, Bool.and_eq_true, beq_iff_eq] at h5; exact h5.1
    have e6 : inp.inpR.length = 9 := by
      simp only [validFaceInput, Bool.and_eq_true, beq_iff_eq] at h6; exact h6.1
    unfold update_cube
    rw [h1, h2, h3, h4, h5, h6]
    simp only [Bool.and_self, if_true]
    simp only [set_face_from_string, List.length_map, e1, e2, e3, e4, e5, e6,
      if_pos (by omega : (9 : Nat) ≤ 9), Option.some_bind]
    rfl

/-- An invalid set of manual inputs: the Up string has only 8 characters,
the other five are valid. -/
def shortUpInputs : FaceInputs :=
  ⟨List.replicate 8 'W', List.replicate 9 'Y', List.replicate 9 'R',
   List.replicate 9 'O', List.replicate 9 'B', List.replicate 9 'G'⟩

/-- A fully valid set of manual inputs, lowercased. -/
def lowercaseInputs : FaceInputs :=
  ⟨List.replicate 9 'w', List.replicate 9 'y', List.replicate 9 'r',
   List.replicate 9 'o', List.replicate 9 'b', List.replicate 9 'g'⟩

/-- Witness for claim C9: a length-8 Up string alongside five valid faces
changes nothing, and six valid lowercase strings overwrite all six faces
uppercased. -/
theorem manual_update_all_or_nothing_witness :
    update_cube shortUpInputs solvedCube = none ∧
    update_cube lowercaseInputs solvedCube = some
      { U := first9Face (lowercaseInputs.inpU.map Char.toUpper)
        D := first9Face (lowercaseInputs.inpD.map Char.toUpper)
        F := first9Face (lowercaseInputs.inpF.map Char.toUpper)
        B := first9Face (lowercaseInputs.inpB.map Char.toUpper)
        L := first9Face (lowercaseInputs.inpL.map Char.toUpper)
        R := first9Face (lowercaseInputs.inpR.map Char.toUpper) } :=
  ⟨(manual_update_all_or_nothing shortUpInputs solvedCube).1 (Or.inl (by decide)),
   (manual_update_all_or_nothing lowercaseInputs solvedCube).2
     ⟨by decide, by decide, by decide, by decide, by decide, by decide⟩⟩

/-- Claim C10: no recognized move token ever changes a face's center cell,
so every state reached from solved keeps the centers
Up White, Down Yellow, Front Red, Back Orange, Left Blue, Right Green. -/
theorem centers_invariant :
    (∀ mv ∈ tokens18, ∀ c : Cube, centers (execute_move mv c) = centers c) ∧
    (∀ moves : List String,
      centers (applySeq moves solvedCube) = ['W', 'Y', 'R', 'O', 'B', 'G']) := by
  constructor
  · intro mv _ c
    exact centers_execute mv c
  · intro moves
    rw [centers_applySeq]
    rfl

/-- Witness for claim C10 at the token R on the solved cube and the
one-move sequence `[R]`. -/
theorem centers_invariant_witness :
    centers (execute_move tokR solvedCube) = centers solvedCube ∧
    centers (applySeq [tokR] solvedCube) = ['W', 'Y', 'R', 'O', 'B', 'G'] :=
  ⟨centers_invariant.1 tokR (by decide) solvedCube,
   centers_invariant.2 [tokR]⟩
